import Mathlib

/-!
Verification of the citation / confidence / query-orchestration logic of an
agentic-RAG application (`app/query_engine.py`) and of the PDF validator
(`app/document_parser.py`), via a shallow embedding.

Python strings are modelled as `List Char`, Python floats of the confidence
heuristic as `ℚ` (the heuristic only adds and subtracts decimal constants),
Python dicts as Lean structures, and the fallible external LLM/retrieval call
as an `Except` input to `query`.  The Python regex patterns of
`_extract_citations_from_text` are compiled by hand into deterministic
matchers that reproduce `re.findall` semantics (leftmost, non-overlapping,
case-insensitive) for the three concrete patterns.
-/

/-- Whitespace as Python's `str.split` / `str.strip` sees it (ASCII part):
space, tab, newline, carriage return, vertical tab, form feed. -/
def pyIsSpace (c : Char) : Bool :=
  c == ' ' || c == '\t' || c == '\n' || c == '\r' ||
  c == Char.ofNat 11 || c == Char.ofNat 12

/-- Python `str.lower()` (ASCII part), on a character list. -/
def toLowerL (s : List Char) : List Char :=
  s.map Char.toLower

/-- Python `str.strip()`: remove leading and trailing whitespace. -/
def stripL (s : List Char) : List Char :=
  ((s.dropWhile pyIsSpace).reverse.dropWhile pyIsSpace).reverse

/-- Python's `needle in hay` substring test on character lists. -/
def isSubstrOf (needle : List Char) : List Char → Bool
  | [] => needle.isEmpty
  | c :: rest => needle.isPrefixOf (c :: rest) || isSubstrOf needle rest

/-- Match a literal (given lowercase) case-insensitively at the head of `s`,
returning the rest of `s` after the literal on success. -/
def dropLitCI : List Char → List Char → Option (List Char)
  | [], s => some s
  | _ :: _, [] => none
  | l :: ls, c :: cs => if c.toLower == l then dropLitCI ls cs else none

/-- Python `int()` on a run of ASCII digits. -/
def digitsToNat (ds : List Char) : Nat :=
  ds.foldl (fun a c => a * 10 + (c.toNat - '0'.toNat)) 0

/-- Count of maximal non-whitespace runs: `len(text.split())` in Python.
The Boolean argument records whether the previous character was inside a
word. -/
def countWords : List Char → Bool → Nat
  | [], _ => 0
  | c :: rest, inWord =>
    if pyIsSpace c then countWords rest false
    else (if inWord then 0 else 1) + countWords rest true

/-- Python `len(text.split())`. -/
def wordCount (s : List Char) : Nat :=
  countWords s false

/-- Python `min(max(x, 0.0), 1.0)`. -/
def clamp01 (x : ℚ) : ℚ :=
  min (max x 0) 1

/-- Origin of a citation record: built from a retrieval source node
(`structured`) or parsed out of the answer text (`text`, Python
`"type": "text_citation"`). -/
inductive CitOrigin
  | structured
  | text
deriving DecidableEq

/-- A citation dict as built by `_extract_citations_from_response` /
`_extract_citations_from_text`.  Structured citations carry
`text_snippet`/`score`; text-pattern citations carry neither. -/
structure Citation where
  file : List Char
  page : Int
  snippet : Option (List Char)
  score : Option ℚ
  type : CitOrigin
deriving DecidableEq

/-- The metadata fields of a retrieval node that the engine reads. -/
structure Metadata where
  file_name : Option (List Char)
  page : Option Int
deriving DecidableEq

/-- A retrieval source node (`response.source_nodes[i]`): metadata, chunk
text, and an optional relevance score (`getattr(node, 'score', 0.0)`). -/
structure Node where
  metadata : Metadata
  text : List Char
  score : Option ℚ
deriving DecidableEq

/-- A source-document dict as built by `_extract_source_documents`. -/
structure SourceDocument where
  file_name : List Char
  page : Int
  text_snippet : List Char
  relevance_score : ℚ
  metadata : Metadata
deriving DecidableEq

/-- The external engine's response: its text (`str(response)`) and, when the
object has the attribute, its source nodes. -/
structure Response where
  text : List Char
  source_nodes : Option (List Node)
deriving DecidableEq

/-- The result dict returned by `QueryEngine.query`. -/
structure ChatTurn where
  answer : List Char
  citations : List Citation
  sources : List (List Char)
  confidence : ℚ
  source_documents : List SourceDocument
deriving DecidableEq

/-- Role of a conversation-memory message. -/
inductive Role
  | user
  | assistant
deriving DecidableEq

/-- An entry of the conversation memory (`ChatMessage`). -/
structure ChatMessage where
  role : Role
  content : List Char
deriving DecidableEq

/-- The factual-indicator phrases checked by `_calculate_confidence`. -/
def factualIndicators : List (List Char) :=
  ["according to", "states that", "specifies", "indicates"].map String.toList

/-- Python `any(indicator in response_text.lower() for indicator in [...])`. -/
def hasFactualIndicator (t : List Char) : Bool :=
  factualIndicators.any (fun k => isSubstrOf k (toLowerL t))

/-- `QueryEngine._calculate_confidence`, line for line: base 0.3, citation
and source bonuses, word-count adjustments, empty-citation penalty, keyword
bonus, final clamp to `[0, 1]`. -/
def calculate_confidence (response_text : List Char) (citations : List Citation)
    (num_sources : Nat) : ℚ :=
  let confidence : ℚ := 3/10
  let confidence :=
    if citations.isEmpty then confidence
    else confidence + min (4/10) ((citations.length : ℚ) * (1/10))
  let confidence :=
    if num_sources > 0 then confidence + min (2/10) ((num_sources : ℚ) * (5/100))
    else confidence
  let word_count := wordCount response_text
  let confidence :=
    if word_count > 50 then confidence + 1/10
    else if word_count > 20 then confidence + 5/100
    else confidence
  let confidence := if word_count < 10 then confidence - 2/10 else confidence
  let confidence := if citations.isEmpty then confidence - 3/10 else confidence
  let confidence :=
    if hasFactualIndicator response_text then confidence + 1/10 else confidence
  clamp01 confidence

/-- The Confidence Scorer formula as the specification words it (claim C1):
one fixed-order sum of clamped terms, clamped to `[0, 1]` at the end.  This
is the spec-side definition for the refinement comparison with
`calculate_confidence`. -/
def claimConfidence (response_text : List Char) (citations : List Citation)
    (num_sources : Nat) : ℚ :=
  let wc := wordCount response_text
  clamp01 ((3 : ℚ)/10
    + min (4/10) ((citations.length : ℚ) * (1/10))
    + (if num_sources > 0 then min (2/10) ((num_sources : ℚ) * (5/100)) else 0)
    + (if wc > 50 then 1/10 else if wc > 20 then 5/100 else 0)
    - (if wc < 10 then 2/10 else 0)
    - (if citations.isEmpty then 3/10 else 0)
    + (if hasFactualIndicator response_text then 1/10 else 0))

lemma clamp01_nonneg (x : ℚ) : 0 ≤ clamp01 x :=
  le_min (le_max_right x 0) zero_le_one

lemma clamp01_le_one (x : ℚ) : clamp01 x ≤ 1 :=
  min_le_right _ _

lemma calculate_confidence_eq_claim (t : List Char) (cs : List Citation)
    (n : Nat) : calculate_confidence t cs n = claimConfidence t cs n := by
  unfold calculate_confidence claimConfidence
  cases cs with
  | nil =>
      simp only [List.isEmpty_nil, List.length_nil, Nat.cast_zero, zero_mul,
        if_true]
      rw [min_eq_right (by norm_num : (0:ℚ) ≤ 4/10)]
      congr 1
      split_ifs <;> ring
  | cons c cs' =>
      simp only [List.isEmpty_cons, if_false, Bool.false_eq_true]
      congr 1
      split_ifs <;> ring

/-- C3: the confidence returned by `_calculate_confidence` always lies in the
closed interval `[0, 1]`, for every answer text, citation list and source
count. -/
theorem confidence_always_bounded (t : List Char) (cs : List Citation)
    (n : Nat) :
    0 ≤ calculate_confidence t cs n ∧ calculate_confidence t cs n ≤ 1 := by
  unfold calculate_confidence
  exact ⟨clamp01_nonneg _, clamp01_le_one _⟩

/-- Case-insensitive `.pdf` suffix test used by the three citation
patterns (`\.pdf` under `re.IGNORECASE`). -/
def endsWithPdfCI (g : List Char) : Bool :=
  ".pdf".toList.isSuffixOf (toLowerL g)

/-- Attempted match of pattern 1, `\[Source:\s*([^,]+\.pdf),\s*Page:\s*(\d+)\]`
(case-insensitive), at the head of `s`.  Since the file group consists of
non-comma characters and is followed by a literal comma, it necessarily
extends to the first comma after the `[Source:` literal; `\s*` before a
non-whitespace literal and `\d+` before a non-digit literal are
deterministic.  Returns the raw file group, the parsed page number, and the
rest of the input after the match. -/
def tryMatch1 (s : List Char) : Option (List Char × Nat × List Char) :=
  match dropLitCI "[source:".toList s with
  | none => none
  | some r1 =>
    let run := r1.takeWhile (fun c => c != ',')
    match r1.dropWhile (fun c => c != ',') with
    | [] => none
    | _ :: r2 =>
      if 5 ≤ run.length ∧ endsWithPdfCI run = true then
        match dropLitCI "page:".toList (r2.dropWhile pyIsSpace) with
        | none => none
        | some r4 =>
          let r5 := r4.dropWhile pyIsSpace
          let ds := r5.takeWhile Char.isDigit
          if ds.isEmpty then none
          else
            match r5.dropWhile Char.isDigit with
            | ']' :: r7 => some (run, digitsToNat ds, r7)
            | _ => none
      else none

/-- The tail of pattern 2 after the file group: `\s*-\s*Page\s*(\d+)`
(case-insensitive). -/
def tailMatch2 (t : List Char) : Option (Nat × List Char) :=
  match t.dropWhile pyIsSpace with
  | '-' :: t2 =>
    match dropLitCI "page".toList (t2.dropWhile pyIsSpace) with
    | none => none
    | some t4 =>
      let t5 := t4.dropWhile pyIsSpace
      let ds := t5.takeWhile Char.isDigit
      if ds.isEmpty then none
      else some (digitsToNat ds, t5.dropWhile Char.isDigit)
  | _ => none

/-- Greedy backtracking over the length of the file group of pattern 2:
`[^,\s]+\.pdf` prefers the longest prefix of the non-comma non-whitespace
run that ends in `.pdf` (length at least 5) and whose continuation matches
the pattern tail. -/
def tryK2 (run s : List Char) : Nat → Option (List Char × Nat × List Char)
  | 0 => none
  | k + 1 =>
    if 5 ≤ k + 1 ∧ endsWithPdfCI (run.take (k + 1)) = true then
      match tailMatch2 (s.drop (k + 1)) with
      | some (page, rest) => some (run.take (k + 1), page, rest)
      | none => tryK2 run s k
    else tryK2 run s k

/-- Attempted match of pattern 2, `([^,\s]+\.pdf)\s*-\s*Page\s*(\d+)`
(case-insensitive), at the head of `s`. -/
def tryMatch2 (s : List Char) : Option (List Char × Nat × List Char) :=
  let run := s.takeWhile (fun c => !(c == ',' || pyIsSpace c))
  tryK2 run s run.length

/-- Attempted match of pattern 3, `\(([^,]+\.pdf),\s*p\.\s*(\d+)\)`
(case-insensitive), at the head of `s`.  As for pattern 1, the file group
extends exactly to the first comma after the opening parenthesis. -/
def tryMatch3 (s : List Char) : Option (List Char × Nat × List Char) :=
  match s with
  | '(' :: r1 =>
    let run := r1.takeWhile (fun c => c != ',')
    match r1.dropWhile (fun c => c != ',') with
    | [] => none
    | _ :: r2 =>
      if 5 ≤ run.length ∧ endsWithPdfCI run = true then
        match dropLitCI "p.".toList (r2.dropWhile pyIsSpace) with
        | none => none
        | some r4 =>
          let r5 := r4.dropWhile pyIsSpace
          let ds := r5.takeWhile Char.isDigit
          if ds.isEmpty then none
          else
            match r5.dropWhile Char.isDigit with
            | ')' :: r7 => some (run, digitsToNat ds, r7)
            | _ => none
      else none
  | _ => none

/-- The scan loop of `re.findall`: try a match at every position from left to
right; on success, resume after the match (matches do not overlap).  The fuel
starts at the length of the text; every step drops at least one character, so
the fuel is never exhausted before the text is. -/
def scanP (tm : List Char → Option (List Char × Nat × List Char)) :
    Nat → List Char → List (List Char × Nat)
  | 0, _ => []
  | _ + 1, [] => []
  | fuel + 1, c :: rest =>
    match tm (c :: rest) with
    | some (f, p, remaining) => (f, p) :: scanP tm fuel remaining
    | none => scanP tm fuel rest

/-- `re.findall(pattern, text, re.IGNORECASE)` for one of the three
patterns. -/
def findAllP (tm : List Char → Option (List Char × Nat × List Char))
    (text : List Char) : List (List Char × Nat) :=
  scanP tm text.length text

/-- The citation dict built for one text-pattern match:
`file = file_name.strip()`, `page = int(page)`, `type = "text_citation"`. -/
def textCitation (fp : List Char × Nat) : Citation :=
  { file := stripL fp.1, page := (fp.2 : Int), snippet := none, score := none,
    type := CitOrigin.text }

/-- `QueryEngine._extract_citations_from_text`: the three pattern scans in
order, each contributing its matches in text order. -/
def extract_citations_from_text (text : List Char) : List Citation :=
  ((findAllP tryMatch1 text).map textCitation)
    ++ ((findAllP tryMatch2 text).map textCitation)
    ++ ((findAllP tryMatch3 text).map textCitation)

/-- The structured citation dict built for source node `i`:
`file_name` defaults to `Document_<i+1>`, `page` defaults to 1, snippet is
the first 200 characters with an appended ellipsis when truncated, score
defaults to 0. -/
def structuredCitation (i : Nat) (node : Node) : Citation :=
  { file := node.metadata.file_name.getD
      ("Document_".toList ++ (Nat.repr (i + 1)).toList)
    page := node.metadata.page.getD 1
    snippet := some (if node.text.length > 200
      then node.text.take 200 ++ "...".toList else node.text)
    score := some (node.score.getD 0)
    type := CitOrigin.structured }

/-- The structured citations of a response: one per source node, in node
order; none when the response has no `source_nodes` attribute. -/
def structuredCitations (source_nodes : Option (List Node)) : List Citation :=
  match source_nodes with
  | none => []
  | some nodes => nodes.enum.map (fun p => structuredCitation p.1 p.2)

/-- `QueryEngine._extract_citations_from_response`: structured citations
first, then those text-pattern citations whose `(file, page)` pair is not
among the structured pairs (the Python set `file_page_pairs` is built from
the structured citations only and never extended). -/
def extract_citations_from_response (source_nodes : Option (List Node))
    (response_text : List Char) : List Citation :=
  let citations := structuredCitations source_nodes
  let text_citations := extract_citations_from_text response_text
  let file_page_pairs := citations.map (fun c => (c.file, c.page))
  citations ++ text_citations.filter
    (fun tc => decide ((tc.file, tc.page) ∉ file_page_pairs))

/-- The source-document dict built for one node by
`_extract_source_documents`: snippet is the first 300 characters with an
appended ellipsis when truncated. -/
def sourceDocumentOfNode (node : Node) : SourceDocument :=
  { file_name := node.metadata.file_name.getD "Unknown".toList
    page := node.metadata.page.getD 1
    text_snippet := if node.text.length > 300
      then node.text.take 300 ++ "...".toList else node.text
    relevance_score := node.score.getD 0
    metadata := node.metadata }

/-- `QueryEngine._extract_source_documents`: one record per source node. -/
def extract_source_documents (source_nodes : Option (List Node)) :
    List SourceDocument :=
  (source_nodes.getD []).map sourceDocumentOfNode

/-- Insertion into a duplicate-free list, keeping first-seen order. -/
def insertUnique (l : List (List Char)) (x : List Char) : List (List Char) :=
  if x ∈ l then l else l ++ [x]

/-- `QueryEngine._extract_sources_from_response`: the set of node file names
(skipping missing and empty ones) together with the files of all text-pattern
citations.  Python materialises this as `list(set)` whose order is
unspecified; the model fixes first-insertion order.  No claim depends on the
order. -/
def extract_sources_from_response (source_nodes : Option (List Node))
    (response_text : List Char) : List (List Char) :=
  let fromNodes := (source_nodes.getD []).foldl
    (fun acc node =>
      match node.metadata.file_name with
      | some f => if f.isEmpty then acc else insertUnique acc f
      | none => acc) []
  (extract_citations_from_text response_text).foldl
    (fun acc c => insertUnique acc c.file) fromNodes

/-- The nine "no answer" indicator substrings. -/
def noAnswerIndicators : List (List Char) :=
  ["no answer found", "no information found", "no relevant information",
   "not found in the documents", "no sources found", "cannot find",
   "unable to find", "not mentioned in the documents",
   "no specific information"].map String.toList

/-- `QueryEngine._is_no_answer_response`: any indicator occurs in the
lowercased response text. -/
def is_no_answer_response (response_text : List Char) : Bool :=
  noAnswerIndicators.any (fun ind => isSubstrOf ind (toLowerL response_text))

/-- The record returned for an empty or whitespace-only question. -/
def invalidQuestionTurn : ChatTurn :=
  { answer := "Please provide a valid question.".toList, citations := [],
    sources := [], confidence := 0, source_documents := [] }

/-- The canonical empty record returned on the no-answer path. -/
def noAnswerTurn : ChatTurn :=
  { answer := "No answer found in the provided documents.".toList,
    citations := [], sources := [], confidence := 0, source_documents := [] }

/-- The record returned from the exception handler of `query`. -/
def errorTurn (msg : List Char) : ChatTurn :=
  { answer := "Error processing your question: ".toList ++ msg,
    citations := [], sources := [], confidence := 0, source_documents := [] }

/-- `QueryEngine.query`.  The conversation memory is the engine's only
mutable state touched by a query, passed and returned explicitly.  The
external citation-engine call — the query's fallible step, executed before
anything is written to memory — is an input: `Except.error e` models the
call raising an exception with message `e` (caught by the surrounding
`try/except`), `Except.ok` a response object.  Context injection
(`_add_context`) only affects the prompt sent to the external engine, never
the returned record, and is therefore absorbed into the oracle input. -/
def query (mem : List ChatMessage) (question : List Char)
    (external : Except (List Char) Response) : ChatTurn × List ChatMessage :=
  if (stripL question).isEmpty then (invalidQuestionTurn, mem)
  else
    match external with
    | Except.error e => (errorTurn e, mem)
    | Except.ok resp =>
      let response_text := resp.text
      let citations := extract_citations_from_response resp.source_nodes response_text
      let sources := extract_sources_from_response resp.source_nodes response_text
      let source_documents := extract_source_documents resp.source_nodes
      let mem' := mem ++ [⟨Role.user, question⟩, ⟨Role.assistant, response_text⟩]
      if is_no_answer_response response_text then (noAnswerTurn, mem')
      else
        ({ answer := response_text, citations := citations, sources := sources,
           confidence := calculate_confidence response_text citations
             source_documents.length,
           source_documents := source_documents }, mem')

/-- The filesystem as `validate_pdf` observes it: the bytes of the file at
the given path (`none` when the file does not exist), and whether any of the
OS calls raises (caught by the function's `except` clause). -/
structure FS where
  file : Option (List Nat)
  ioError : Bool
deriving DecidableEq

/-- The bytes of the PDF header `b'%PDF'`. -/
def pdfHeader : List Nat := [37, 80, 68, 70]

/-- `document_parser.validate_pdf`: existence check, case-insensitive `.pdf`
suffix check on the path, 50 MB size bound, `%PDF` header check on the first
four bytes read; any raised exception yields `False`. -/
def validate_pdf (file_path : List Char) (fs : FS) : Bool :=
  if fs.ioError then false
  else
    match fs.file with
    | none => false
    | some content =>
      if ¬ (".pdf".toList <:+ toLowerL file_path) then false
      else if content.length > 50 * 1024 * 1024 then false
      else if content.take 4 ≠ pdfHeader then false
      else true

/-- A 42-word answer (forty-two one-letter words) containing no factual
indicator phrase, for the concrete part of claim C1. -/
def exampleAnswer42 : List Char :=
  (List.replicate 42 "w ".toList).flatten

/-- A single citation record for the concrete part of claim C1. -/
def exampleCitation : Citation :=
  { file := "catalog.pdf".toList, page := 3, snippet := none, score := none,
    type := CitOrigin.text }

/-- C1: for every answer text, citation list and source count, the
Confidence Scorer returns exactly the fixed-order sum stated by the
specification (base 0.3, citation bonus min(0.4, 0.1·citations), source
bonus min(0.2, 0.05·sources) when sources > 0, word-count bonus 0.1 above 50
words or 0.05 above 20, penalty 0.2 below 10 words, penalty 0.3 for an
empty citation list, keyword bonus 0.1, clamped to [0, 1]); in particular a
42-word answer with one citation, one source and no keyword phrase scores
exactly 0.5. -/
theorem confidence_matches_spec_formula :
    (∀ (t : List Char) (cs : List Citation) (n : Nat),
      calculate_confidence t cs n = claimConfidence t cs n)
    ∧ calculate_confidence exampleAnswer42 [exampleCitation] 1 = 1/2 := by
  constructor
  · exact calculate_confidence_eq_claim
  · rw [calculate_confidence_eq_claim]
    have hw : wordCount exampleAnswer42 = 42 := by decide
    have hf : hasFactualIndicator exampleAnswer42 = false := by decide
    unfold claimConfidence
    rw [hw, hf]
    norm_num [clamp01]

/-- C2: whenever the lowercased response text contains one of the nine
"no answer" indicator substrings, `query` returns exactly the canonical
empty record — fixed no-answer message, empty citations, sources and source
documents, confidence 0 — regardless of the rest of the response; the
record's confidence is the constant 0, so the Confidence Scorer is never
consulted on this path. -/
theorem no_answer_short_circuit (mem : List ChatMessage) (q : List Char)
    (resp : Response) (hq : (stripL q).isEmpty = false)
    (hna : is_no_answer_response resp.text = true) :
    (query mem q (Except.ok resp)).1 =
      { answer := "No answer found in the provided documents.".toList,
        citations := [], sources := [], confidence := 0,
        source_documents := [] } := by
  simp [query, hq, hna, noAnswerTurn]

/-- A source node used by several concrete instances below. -/
def aPdfNode : Node :=
  { metadata := { file_name := some "a.pdf".toList, page := some 2 },
    text := "chunk text".toList, score := none }

/-- A response whose text contains the indicator "cannot find" and which
nevertheless carries a source node. -/
def noAnswerResp : Response :=
  { text := "I cannot find it in the catalog.".toList,
    source_nodes := some [aPdfNode] }

theorem no_answer_short_circuit_witness :
    (query [] "hi".toList (Except.ok noAnswerResp)).1 =
      { answer := "No answer found in the provided documents.".toList,
        citations := [], sources := [], confidence := 0,
        source_documents := [] } :=
  no_answer_short_circuit [] "hi".toList noAnswerResp (by decide) (by decide)

lemma type_of_mem_structuredCitations (sn : Option (List Node)) (c : Citation)
    (hc : c ∈ structuredCitations sn) : c.type = CitOrigin.structured := by
  cases sn with
  | none => simp [structuredCitations] at hc
  | some nodes =>
      simp only [structuredCitations, List.mem_map] at hc
      obtain ⟨p, _, rfl⟩ := hc
      rfl

/-- An answer text containing the same text-pattern citation twice. -/
def dupCitationText : List Char :=
  "[Source: a.pdf, Page: 1] [Source: a.pdf, Page: 1]".toList

/-- C4 counterexample: the merged citation list can contain two records with
the same `(file, page)` pair — the Python pair set is built from the
structured citations only and never extended while text-pattern citations
are appended, so a repeated text citation survives twice. -/
theorem citation_dedup_counterexample :
    ¬ List.Nodup ((extract_citations_from_response none dupCitationText).map
      (fun c => (c.file, c.page))) := by decide

/-- C4 (amended): the merge keeps all structured citations, as a prefix; a
text-pattern citation occurs in the merged list exactly when it was
extracted from the text and its `(file, page)` key is not among the
structured keys — so a text-pattern citation never shares a key with a
structured one (the structured one wins) — but duplicate keys within the
structured citations, or within the text-pattern citations, are not
removed. -/
theorem citation_merge_structured_wins (sn : Option (List Node))
    (text : List Char) :
    ((extract_citations_from_response sn text).take
        (structuredCitations sn).length = structuredCitations sn)
    ∧ (∀ c ∈ extract_citations_from_response sn text,
        c.type = CitOrigin.text →
          (c.file, c.page) ∉ (structuredCitations sn).map
              (fun s => (s.file, s.page))
          ∧ c ∈ extract_citations_from_text text)
    ∧ (∀ c ∈ extract_citations_from_text text,
        (c.file, c.page) ∉ (structuredCitations sn).map
            (fun s => (s.file, s.page)) →
          c ∈ extract_citations_from_response sn text) := by
  refine ⟨?_, ?_, ?_⟩
  · unfold extract_citations_from_response
    exact List.take_left _ _
  · intro c hc htype
    unfold extract_citations_from_response at hc
    rw [List.mem_append] at hc
    cases hc with
    | inl h =>
        rw [type_of_mem_structuredCitations sn c h] at htype
        cases htype
    | inr h =>
        rw [List.mem_filter] at h
        refine ⟨?_, h.1⟩
        simpa using h.2
  · intro c hc hnot
    unfold extract_citations_from_response
    rw [List.mem_append]
    right
    rw [List.mem_filter]
    exact ⟨hc, by simpa using hnot⟩

/-- Source nodes and text for the C4 witness: the structured citation and
the first text citation share the key `(a.pdf, 1)`, the second text citation
has the fresh key `(b.pdf, 2)`. -/
def c4nodes : Option (List Node) :=
  some [{ metadata := { file_name := some "a.pdf".toList, page := some 1 },
          text := "t".toList, score := none }]

/-- The answer text for the C4 witness. -/
def c4text : List Char :=
  "[Source: a.pdf, Page: 1] (b.pdf, p. 2)".toList

theorem citation_merge_structured_wins_witness :
    textCitation ("b.pdf".toList, 2) ∈
      extract_citations_from_response c4nodes c4text :=
  (citation_merge_structured_wins c4nodes c4text).2.2
    (textCitation ("b.pdf".toList, 2)) (by decide) (by decide)

/-- C5: `query` is a total function — the whole body runs under one
`try/except` — and when the fallible step (the external retrieval/LLM call)
fails, the caller still receives an ordinary record: the error message
embedded in the answer, empty citations, sources and source documents, and
confidence 0. -/
theorem query_error_shaped (mem : List ChatMessage) (q : List Char)
    (e : List Char) (hq : (stripL q).isEmpty = false) :
    (query mem q (Except.error e)).1 =
      { answer := "Error processing your question: ".toList ++ e,
        citations := [], sources := [], confidence := 0,
        source_documents := [] } := by
  simp [query, hq, errorTurn]

theorem query_error_shaped_witness :
    (query [] "hi".toList (Except.error "network down".toList)).1 =
      { answer := ("Error processing your question: ".toList
          ++ "network down".toList),
        citations := [], sources := [], confidence := 0,
        source_documents := [] } :=
  query_error_shaped [] "hi".toList "network down".toList (by decide)

lemma stripL_eq_nil_of_all_space (q : List Char) (hq : q.all pyIsSpace = true) :
    stripL q = [] := by
  unfold stripL
  have h1 : q.dropWhile pyIsSpace = [] := by
    rw [List.dropWhile_eq_nil_iff]
    intro x hx
    exact List.all_eq_true.mp hq x hx
  rw [h1]
  rfl

/-- C6: an empty or whitespace-only question short-circuits: `query` returns
the fixed prompt record and leaves the memory untouched, and the result does
not depend on the external-call input at all (the external services are
never consulted). -/
theorem empty_question_short_circuit (mem : List ChatMessage) (q : List Char)
    (external : Except (List Char) Response) (hq : q.all pyIsSpace = true) :
    query mem q external =
      ({ answer := "Please provide a valid question.".toList, citations := [],
         sources := [], confidence := 0, source_documents := [] }, mem) := by
  have h := stripL_eq_nil_of_all_space q hq
  simp [query, h, invalidQuestionTurn]

theorem empty_question_short_circuit_witness :
    query [] (" \t".toList) (Except.error "never raised".toList) =
      ({ answer := "Please provide a valid question.".toList, citations := [],
         sources := [], confidence := 0, source_documents := [] }, []) :=
  empty_question_short_circuit [] (" \t".toList)
    (Except.error "never raised".toList) (by decide)

/-- An answer text whose only text-pattern citation carries page number 0. -/
def zeroPageText : List Char :=
  "[Source: a.pdf, Page: 0]".toList

/-- C7 counterexample: the page of a text-pattern citation need not be
positive — the pattern `\d+` also matches `0`, and `int("0")` is 0, so
`[Source: a.pdf, Page: 0]` yields a citation with page 0. -/
theorem text_citation_page_counterexample :
    ¬ ∀ c ∈ extract_citations_from_text zeroPageText, 1 ≤ c.page := by
  decide

/-- C7 (amended): every citation produced by the text-pattern extractor has
a non-negative integer page — the page group only matches digit runs, so a
match whose page component is non-numeric is impossible and yields no
citation — but page 0 is allowed. -/
theorem text_citation_pages_nonneg (text : List Char) (c : Citation)
    (hc : c ∈ extract_citations_from_text text) :
    0 ≤ c.page ∧ c.type = CitOrigin.text := by
  unfold extract_citations_from_text at hc
  simp only [List.mem_append, List.mem_map] at hc
  rcases hc with (⟨fp, _, rfl⟩ | ⟨fp, _, rfl⟩) | ⟨fp, _, rfl⟩ <;>
    exact ⟨Int.natCast_nonneg fp.2, rfl⟩

theorem text_citation_pages_nonneg_witness :
    0 ≤ (textCitation ("x.pdf".toList, 7)).page
    ∧ (textCitation ("x.pdf".toList, 7)).type = CitOrigin.text :=
  text_citation_pages_nonneg "(x.pdf, p. 7)".toList
    (textCitation ("x.pdf".toList, 7)) (by decide)

/-- A source node whose chunk text is 201 characters long. -/
def longNode : Node :=
  { metadata := { file_name := some "a.pdf".toList, page := some 1 },
    text := List.replicate 201 'a', score := none }

/-- A source node whose chunk text is 301 characters long. -/
def longerNode : Node :=
  { metadata := { file_name := some "a.pdf".toList, page := some 1 },
    text := List.replicate 301 'b', score := none }

set_option maxRecDepth 8000 in
/-- C8 counterexample: a truncated snippet is longer than the claimed bound,
because the three-character ellipsis is appended after the 200 (resp. 300)
kept characters: a 201-character chunk gives a 203-character citation
snippet, and a 301-character chunk a 303-character source-document
snippet. -/
theorem snippet_length_counterexample :
    ¬ ((((structuredCitation 0 longNode).snippet.getD []).length ≤ 200)
       ∧ ((sourceDocumentOfNode longerNode).text_snippet.length ≤ 300)) := by
  decide

/-- C8 (amended): a structured citation's snippet is at most 203 characters
— the whole chunk text when it has at most 200 characters, and its first 200
characters with a three-character ellipsis appended otherwise — and a
source-document snippet is, likewise, at most 303 characters. -/
theorem snippet_lengths (i : Nat) (node : Node) :
    (((structuredCitation i node).snippet.getD []).length ≤ 203)
    ∧ (node.text.length > 200 →
        (structuredCitation i node).snippet
          = some (node.text.take 200 ++ "...".toList))
    ∧ (node.text.length ≤ 200 →
        (structuredCitation i node).snippet = some node.text)
    ∧ ((sourceDocumentOfNode node).text_snippet.length ≤ 303) := by
  refine ⟨?_, ?_, ?_, ?_⟩
  · unfold structuredCitation
    by_cases h : node.text.length > 200
    · simp only [h, if_true, Option.getD_some]
      rw [List.length_append, List.length_take]
      simp
    · simp only [h, if_false, Option.getD_some]
      omega
  · intro h
    unfold structuredCitation
    simp [h]
  · intro h
    unfold structuredCitation
    have h' : ¬ node.text.length > 200 := by omega
    simp [h']
  · unfold sourceDocumentOfNode
    by_cases h : node.text.length > 300
    · simp only [h, if_true]
      rw [List.length_append, List.length_take]
      simp
    · simp only [h, if_false]
      omega

theorem snippet_lengths_witness :
    (structuredCitation 0 longNode).snippet
      = some (longNode.text.take 200 ++ "...".toList) :=
  (snippet_lengths 0 longNode).2.1 (by norm_num [longNode])

/-- C9 counterexample: a query whose external call fails appends nothing to
the conversation memory — the exception is raised before the two
`memory.put` calls — so it is not the case that every query appends one
user and one assistant entry. -/
theorem memory_append_counterexample :
    ¬ ((((query [] "hi".toList (Except.error "boom".toList)).2).countP
          (fun m => m.role == Role.user) = 1)
       ∧ (((query [] "hi".toList (Except.error "boom".toList)).2).countP
          (fun m => m.role == Role.assistant) = 1)) := by
  decide

/-- C9 (amended): every query that passes the empty-question check and whose
external call returns a response — including queries resolved on the
no-answer path — appends exactly one user entry followed by one assistant
entry to the conversation memory and changes nothing else of it; the
empty-question and error paths leave the memory untouched. -/
theorem memory_append_exactly_two (mem : List ChatMessage) (q : List Char)
    (resp : Response) (hq : (stripL q).isEmpty = false) :
    (query mem q (Except.ok resp)).2 =
      mem ++ [{ role := Role.user, content := q },
              { role := Role.assistant, content := resp.text }] := by
  by_cases h : is_no_answer_response resp.text <;> simp [query, hq, h]

theorem memory_append_exactly_two_witness :
    (query [] "hi".toList (Except.ok noAnswerResp)).2 =
      [] ++ [{ role := Role.user, content := "hi".toList },
             { role := Role.assistant, content := noAnswerResp.text }] :=
  memory_append_exactly_two [] "hi".toList noAnswerResp (by decide)

/-- C10: `validate_pdf` is total — every OS fault is caught and turned into
`False` — and returns `True` exactly when the file exists, its path ends in
`.pdf` case-insensitively, its size is at most 50 MB, its first four bytes
are `%PDF`, and no I/O error occurs. -/
theorem validate_pdf_characterisation (path : List Char) (fs : FS) :
    validate_pdf path fs = true ↔
      (fs.ioError = false
       ∧ ∃ content, fs.file = some content
         ∧ ".pdf".toList <:+ toLowerL path
         ∧ content.length ≤ 50 * 1024 * 1024
         ∧ content.take 4 = pdfHeader) := by
  unfold validate_pdf
  obtain ⟨file, ioError⟩ := fs
  cases ioError with
  | true => simp
  | false =>
      cases file with
      | none => simp
      | some content =>
          simp only [Bool.false_eq_true, if_false, Option.some.injEq]
          split_ifs with h1 h2 h3 <;> simp_all
